import Mathlib

/-!
Verification development for the Bakong KHQR payment library.

The two verified components are the TLV payload codec with its CRC-16
engine (class BakongKHQR, file src/unnamed/part_003) and the payment
monitoring engine (class AutoPaymentMonitor, file
src/src/AutoPaymentMonitor.js).

Modelling conventions:
  - JavaScript strings are Lean Strings; all payload characters are in
    the basic multilingual plane, where a Lean code point and a
    JavaScript UTF-16 code unit coincide.
  - Monetary amounts are modelled in cents: the JavaScript number v
    stands for cents / 100, so parseFloat(v).toFixed(2) renders the
    integer part, a dot, and the two-digit cent part.
  - Date.now() is passed in explicitly as a natural number of
    milliseconds.
  - Thrown JavaScript errors become Except.error with the thrown
    message; the payment monitor, whose methods never throw, is a total
    state transformer whose emitted events are collected in a list,
    newest first.
-/

namespace BakongKHQR

/-- JavaScript String.prototype.padStart with a single pad character. -/
def padStart (target : ℕ) (c : Char) (s : String) : String :=
  String.mk (List.replicate (target - s.length) c) ++ s

/-- BakongKHQR.formatValue: tag, two-digit zero-padded length, value. -/
def formatValue (tag value : String) : String :=
  tag ++ padStart 2 '0' (toString value.length) ++ value

/-- The message thrown by BakongKHQR.validateLength. -/
def lengthErrorMsg (fieldName : String) (maxLength actual : ℕ) : String :=
  fieldName ++ " cannot exceed " ++ toString maxLength ++
    " characters. Your input length: " ++ toString actual ++ " characters."

/-- BakongKHQR.validateLength: throws when value.length > maxLength. -/
def validateLength (value : String) (maxLength : ℕ) (fieldName : String) :
    Except String Unit :=
  if value.length > maxLength then
    Except.error (lengthErrorMsg fieldName maxLength value.length)
  else
    Except.ok ()

/-- One inner round of BakongKHQR.generateCRC16: crc & 0x8000 is nonzero
exactly when bit 15 is set; crc << 1 is crc * 2; crc &= 0xFFFF is a
reduction modulo 2 ^ 16. -/
def crc16Round (r : ℕ) : ℕ :=
  (if Nat.testBit r 15 then Nat.xor (r * 2) 0x1021 else r * 2) % 65536

/-- Processing of one character in BakongKHQR.generateCRC16:
crc ^= charCodeAt(i) << 8, then eight rounds. -/
def crc16Step (crc : ℕ) (c : Char) : ℕ :=
  crc16Round^[8] (Nat.xor crc (c.toNat * 256))

/-- The register value computed by the loop of BakongKHQR.generateCRC16,
starting from 0xFFFF. -/
def crc16 (data : String) : ℕ :=
  data.data.foldl crc16Step 0xFFFF

/-- One hexadecimal digit as rendered by Number.prototype.toString(16)
followed by toUpperCase. -/
def hexDigitChar16 (n : ℕ) : Char :=
  if n < 10 then Char.ofNat (48 + n) else Char.ofNat (55 + n)

/-- Digits of n in base 16, most significant first, as produced by
Number.prototype.toString(16) (a single zero digit for n = 0). The
first argument is structural-recursion fuel; any fuel above the digit
count gives the same digits, and toHexUpper supplies n + 1, which
always suffices because n shrinks by a factor of 16 per digit. -/
def toHexCore : ℕ → ℕ → List Char
  | 0, _ => []
  | fuel + 1, n =>
    if n < 16 then [hexDigitChar16 n]
    else toHexCore fuel (n / 16) ++ [hexDigitChar16 (n % 16)]

/-- crc.toString(16).toUpperCase() for a natural register value. -/
def toHexUpper (n : ℕ) : String :=
  String.mk (toHexCore (n + 1) n)

/-- BakongKHQR.generateCRC16. -/
def generateCRC16 (data : String) : String :=
  padStart 4 '0' (toHexUpper (crc16 data))

/-- BakongKHQR.crc: append the fixed checksum-tag placeholder "6304",
compute the CRC over the result, return the tag and the CRC value. -/
def crc (qrData : String) : String :=
  "6304" ++ generateCRC16 (qrData ++ "6304")

/-- Second definition for the refinement comparison of the CRC claim,
written after the specification text: initial register 0xFFFF,
polynomial 0x1021, per character XOR the code point into the high byte,
then eight rounds of shift left with conditional XOR of the polynomial
when the vacated high bit was set, masking to 16 bits after every
round. -/
def crc16SpecRound (r : ℕ) : ℕ :=
  (if r / 32768 % 2 = 1 then Nat.xor (r <<< 1) 0x1021 else r <<< 1) % 65536

/-- Spec-worded CRC register fold, to be compared with crc16. -/
def crc16Spec (data : String) : ℕ :=
  data.data.foldl (fun r c => crc16SpecRound^[8] (Nat.xor r (c.toNat <<< 8))) 0xFFFF

/-- Input record of BakongKHQR.createQR. -/
structure QROptions where
  bankAccount : String
  merchantName : String
  merchantCity : String
  amountCents : ℕ
  currency : String
  storeLabel : String
  phoneNumber : String
  billNumber : String
  terminalLabel : String
  isStatic : Bool
deriving DecidableEq

/-- BakongKHQR.payloadFormatIndicator. -/
def payloadFormatIndicator : String := formatValue "00" "01"

/-- BakongKHQR.pointOfInitiation. -/
def pointOfInitiation (isStatic : Bool) : String :=
  formatValue "01" (if isStatic then "11" else "12")

/-- BakongKHQR.globalUniqueIdentifier. -/
def globalUniqueIdentifier (bankAccount : String) : Except String String := do
  validateLength bankAccount 32 "Bank account"
  pure (formatValue "29" (formatValue "00" bankAccount))

/-- BakongKHQR.merchantCategoryCode. -/
def merchantCategoryCode : String := formatValue "52" "5999"

/-- BakongKHQR.countryCode. -/
def countryCode : String := formatValue "58" "KH"

/-- BakongKHQR.merchantName. -/
def merchantName (name : String) : Except String String := do
  validateLength name 25 "Merchant name"
  pure (formatValue "59" name)

/-- BakongKHQR.merchantCity. -/
def merchantCity (city : String) : Except String String := do
  validateLength city 15 "Merchant city"
  pure (formatValue "60" city)

/-- BakongKHQR.timestamp, with Date.now() passed in as now. -/
def timestamp (now : ℕ) : String :=
  let timestampMs := toString now
  let result := "00" ++ padStart 2 '0' (toString timestampMs.length) ++ timestampMs
  "99" ++ padStart 2 '0' (toString result.length) ++ result

/-- parseFloat(value).toFixed(2) for an amount of cents / 100. -/
def toFixed2 (cents : ℕ) : String :=
  toString (cents / 100) ++ "." ++ padStart 2 '0' (toString (cents % 100))

/-- Tail of the regex replace of /\.?0+$/ on a reversed character list,
after at least one trailing zero has been seen: drop the remaining
zeros, then one dot when it directly precedes them. -/
def stripRevZeros : List Char → List Char
  | [] => []
  | c :: t => if c = '0' then stripRevZeros t else if c = '.' then t else c :: t

/-- The regex replace of /\.?0+$/ on a reversed character list: the
leftmost match is the maximal run of trailing zeros, together with a
dot when one directly precedes that run. -/
def stripRev : List Char → List Char
  | [] => []
  | c :: t => if c = '0' then stripRevZeros t else c :: t

/-- The regex replace of /\.?0+$/ with the empty string, from
BakongKHQR.amount. -/
def stripTrailing (s : String) : String :=
  String.mk (stripRev s.data.reverse).reverse

/-- The padded amount string built inside BakongKHQR.amount. -/
def paddedAmount (cents : ℕ) : String :=
  padStart 11 '0' (stripTrailing (toFixed2 cents))

/-- BakongKHQR.amount. -/
def amount (cents : ℕ) : Except String String := do
  validateLength (paddedAmount cents) 14 "Amount"
  pure (formatValue "54" (paddedAmount cents))

/-- JavaScript String.prototype.toUpperCase at the character level
(the payload alphabet is ASCII, where the two coincide). -/
def toUpperCase (s : String) : String :=
  String.mk (s.data.map Char.toUpper)

/-- The numeric currency code chosen by BakongKHQR.transactionCurrency. -/
def currencyNum (currency : String) : String :=
  if toUpperCase currency = "USD" then "840" else "116"

/-- BakongKHQR.transactionCurrency. -/
def transactionCurrency (currency : String) : String :=
  formatValue "53" (currencyNum currency)

/-- The concatenated sub-fields inside BakongKHQR.additionalDataField. -/
def additionalDataValue (storeLabel phoneNumber billNumber terminalLabel : String) :
    String :=
  formatValue "01" billNumber ++ formatValue "02" phoneNumber ++
    formatValue "03" storeLabel ++ formatValue "07" terminalLabel

/-- BakongKHQR.additionalDataField. -/
def additionalDataField (storeLabel phoneNumber billNumber terminalLabel : String) :
    Except String String := do
  validateLength billNumber 25 "Bill number"
  validateLength phoneNumber 25 "Phone number"
  validateLength storeLabel 25 "Store label"
  validateLength terminalLabel 25 "Terminal label"
  pure (formatValue "62"
    (additionalDataValue storeLabel phoneNumber billNumber terminalLabel))

/-- BakongKHQR.createQR, with Date.now() passed in as now. -/
def createQR (o : QROptions) (now : ℕ) : Except String String := do
  let gui ← globalUniqueIdentifier o.bankAccount
  let mn ← merchantName o.merchantName
  let mc ← merchantCity o.merchantCity
  let amt ← if o.isStatic then pure "" else amount o.amountCents
  let adf ← additionalDataField o.storeLabel o.phoneNumber o.billNumber o.terminalLabel
  let qrData := payloadFormatIndicator ++ pointOfInitiation o.isStatic ++ gui ++
    merchantCategoryCode ++ countryCode ++ mn ++ mc ++ timestamp now ++ amt ++
    transactionCurrency o.currency ++ adf
  pure (qrData ++ crc qrData)

/-- The value wrapped by the timestamp Field. -/
def timestampValue (now : ℕ) : String :=
  "00" ++ padStart 2 '0' (toString (toString now).length) ++ toString now

/-- Serialization of a top-level field list by formatValue. -/
def renderFields : List (String × String) → String
  | [] => ""
  | p :: rest => formatValue p.1 p.2 ++ renderFields rest

/-- The top-level (tag, value) fields written by BakongKHQR.createQR
before the checksum field. -/
def baseFields (o : QROptions) (now : ℕ) : List (String × String) :=
  [("00", "01"), ("01", if o.isStatic then "11" else "12"),
   ("29", formatValue "00" o.bankAccount), ("52", "5999"), ("58", "KH"),
   ("59", o.merchantName), ("60", o.merchantCity), ("99", timestampValue now)] ++
  (if o.isStatic then [] else [("54", paddedAmount o.amountCents)]) ++
  [("53", currencyNum o.currency),
   ("62", additionalDataValue o.storeLabel o.phoneNumber o.billNumber o.terminalLabel)]

/-- The top-level (tag, value) field sequence assembled by
BakongKHQR.createQR, with the validations performed in the same order as
there; its rendering by formatValue is proved equal to createQR. -/
def createQRFields (o : QROptions) (now : ℕ) :
    Except String (List (String × String)) := do
  validateLength o.bankAccount 32 "Bank account"
  validateLength o.merchantName 25 "Merchant name"
  validateLength o.merchantCity 15 "Merchant city"
  (if o.isStatic then pure () else validateLength (paddedAmount o.amountCents) 14 "Amount")
  validateLength o.billNumber 25 "Bill number"
  validateLength o.phoneNumber 25 "Phone number"
  validateLength o.storeLabel 25 "Store label"
  validateLength o.terminalLabel 25 "Terminal label"
  pure (baseFields o now ++
    [("63", generateCRC16 (renderFields (baseFields o now) ++ "6304"))])

end BakongKHQR

namespace AutoPaymentMonitor

/-- Lookup in a JavaScript Map modelled as an association list in
insertion order. -/
def getA {α : Type} : List (String × α) → String → Option α
  | [], _ => none
  | (k, v) :: t, key => if k = key then some v else getA t key

/-- Map.prototype.set: replace in place when the key is present,
append otherwise. -/
def setA {α : Type} : List (String × α) → String → α → List (String × α)
  | [], key, v => [(key, v)]
  | (k, w) :: t, key, v =>
    if k = key then (k, v) :: t else (k, w) :: setA t key v

/-- Map.prototype.delete. -/
def eraseA {α : Type} : List (String × α) → String → List (String × α)
  | [], _ => []
  | (k, v) :: t, key => if k = key then eraseA t key else (k, v) :: eraseA t key

/-- Set.prototype.add on a JavaScript Set modelled as a duplicate-free
list in insertion order. -/
def addS (l : List String) (x : String) : List String :=
  if x ∈ l then l else l ++ [x]

/-- Set.prototype.delete. -/
def eraseS : List String → String → List String
  | [], _ => []
  | y :: t, x => if y = x then eraseS t x else y :: eraseS t x

/-- The payment details passed to AutoPaymentMonitor.addPayment. -/
structure PaymentData where
  md5Hash : String
  billNumber : String
  amount : ℕ
  currency : String
  storeLabel : String
  qrCode : String
deriving DecidableEq

/-- The monitorInfo record created by AutoPaymentMonitor.addPayment. -/
structure MonitorInfo where
  md5Hash : String
  billNumber : String
  amount : ℕ
  currency : String
  storeLabel : String
  sessionId : String
  startTime : ℕ
  lastCheck : ℕ
  checkCount : ℕ
  status : String
  qrCode : String
deriving DecidableEq

/-- Events emitted through EventEmitter.emit, carrying the monitorInfo
as present at emission time. -/
inductive MEvent where
  | paymentAdded (md5Hash : String) (info : MonitorInfo)
  | paymentSuccess (md5Hash : String) (info : MonitorInfo)
  | paymentExpired (md5Hash : String) (info : MonitorInfo)
deriving DecidableEq

/-- The mutable state of one AutoPaymentMonitor instance, plus the list
of emitted events, newest first. -/
structure MState where
  activeMonitors : List (String × MonitorInfo)
  userSessions : List (String × List String)
  paymentQueue : List (String × PaymentData)
  events : List MEvent
deriving DecidableEq

/-- this.maxMonitorTime, 30 minutes in milliseconds. -/
def maxMonitorTime : ℕ := 30 * 60 * 1000

/-- Outcome of the awaited paymentService.checkPaymentStatus call: a
resolved status string, or a thrown error. -/
inductive CheckResult where
  | ok (status : String)
  | err (message : String)
deriving DecidableEq

/-- The monitorInfo literal built inside AutoPaymentMonitor.addPayment. -/
def mkMonitorInfo (d : PaymentData) (sessionId : String) (now : ℕ) : MonitorInfo :=
  { md5Hash := d.md5Hash, billNumber := d.billNumber, amount := d.amount,
    currency := d.currency, storeLabel := d.storeLabel, sessionId := sessionId,
    startTime := now, lastCheck := now, checkCount := 0, status := "MONITORING",
    qrCode := d.qrCode.take 50 ++ "..." }

/-- AutoPaymentMonitor.addPayment. -/
def addPayment (d : PaymentData) (sessionId : String) (now : ℕ) (s : MState) :
    MState :=
  let monitorInfo := mkMonitorInfo d sessionId now
  { activeMonitors := setA s.activeMonitors d.md5Hash monitorInfo,
    userSessions :=
      setA s.userSessions sessionId
        (addS ((getA s.userSessions sessionId).getD []) d.md5Hash),
    paymentQueue := setA s.paymentQueue d.md5Hash d,
    events := MEvent.paymentAdded d.md5Hash monitorInfo :: s.events }

/-- AutoPaymentMonitor.removePayment. -/
def removePayment (md5Hash : String) (s : MState) : MState :=
  match getA s.activeMonitors md5Hash with
  | none => s
  | some monitorInfo =>
    { activeMonitors := eraseA s.activeMonitors md5Hash,
      paymentQueue := eraseA s.paymentQueue md5Hash,
      userSessions :=
        match getA s.userSessions monitorInfo.sessionId with
        | none => s.userSessions
        | some sessionPayments =>
          let remaining := eraseS sessionPayments md5Hash
          if remaining.isEmpty then eraseA s.userSessions monitorInfo.sessionId
          else setA s.userSessions monitorInfo.sessionId remaining,
      events := s.events }

/-- AutoPaymentMonitor.handlePaymentSuccess: remove, then emit
payment_success with the monitorInfo as mutated by the check. -/
def handlePaymentSuccess (md5Hash : String) (monitorInfo : MonitorInfo)
    (s : MState) : MState :=
  let s2 := removePayment md5Hash s
  { s2 with events := MEvent.paymentSuccess md5Hash monitorInfo :: s2.events }

/-- AutoPaymentMonitor.expirePayment: remove, then emit payment_expired
with the monitorInfo before any counter increment. -/
def expirePayment (md5Hash : String) (monitorInfo : MonitorInfo) (s : MState) :
    MState :=
  let s2 := removePayment md5Hash s
  { s2 with events := MEvent.paymentExpired md5Hash monitorInfo :: s2.events }

/-- AutoPaymentMonitor.checkSinglePayment. The in-place mutations of the
shared monitorInfo object (checkCount++, lastCheck, status) become
functional record updates written back into activeMonitors; the
surrounding try/catch that swallows a thrown checker error becomes the
CheckResult.err branch of a total function. -/
def checkSinglePayment (md5Hash : String) (result : CheckResult) (now : ℕ)
    (s : MState) : MState :=
  match getA s.activeMonitors md5Hash with
  | none => s
  | some monitorInfo =>
    if maxMonitorTime < now - monitorInfo.startTime then
      expirePayment md5Hash monitorInfo s
    else
      let checked :=
        { monitorInfo with checkCount := monitorInfo.checkCount + 1, lastCheck := now }
      match result with
      | CheckResult.ok st =>
        if st = "PAID" then
          handlePaymentSuccess md5Hash checked
            { s with activeMonitors := setA s.activeMonitors md5Hash checked }
        else
          { s with
            activeMonitors := setA s.activeMonitors md5Hash { checked with status := st } }
      | CheckResult.err _ =>
        { s with activeMonitors := setA s.activeMonitors md5Hash checked }

/-- AutoPaymentMonitor.getCompletedPayments. -/
def getCompletedPayments (s : MState) : ℕ :=
  (s.activeMonitors.filter (fun p => p.2.status == "PAID")).length

/-- The state-mutating operations available on a running monitor:
registration, one single-entry check with a given checker outcome,
explicit removal, and stop (which clears the three maps). -/
inductive MOp where
  | add (d : PaymentData) (sessionId : String) (now : ℕ)
  | check (md5Hash : String) (result : CheckResult) (now : ℕ)
  | remove (md5Hash : String)
  | stop

/-- Apply one operation. -/
def applyOp (s : MState) : MOp → MState
  | MOp.add d sessionId now => addPayment d sessionId now s
  | MOp.check md5Hash result now => checkSinglePayment md5Hash result now s
  | MOp.remove md5Hash => removePayment md5Hash s
  | MOp.stop =>
    { activeMonitors := [], userSessions := [], paymentQueue := [],
      events := s.events }

/-- The state of a freshly constructed AutoPaymentMonitor. -/
def initState : MState :=
  { activeMonitors := [], userSessions := [], paymentQueue := [], events := [] }

/-- Run a sequence of operations from the initial state. -/
def runOps (ops : List MOp) : MState :=
  ops.foldl applyOp initState

end AutoPaymentMonitor

/-- A concrete dynamic-QR input used to instantiate the codec theorems. -/
def sampleOpts : BakongKHQR.QROptions :=
  { bankAccount := "user@bank", merchantName := "Shop", merchantCity := "Phnom Penh",
    amountCents := 1050, currency := "USD", storeLabel := "Store",
    phoneNumber := "012345678", billNumber := "B1", terminalLabel := "T1",
    isStatic := false }

/-- A fixed millisecond timestamp for the concrete payloads. -/
def sampleNow : ℕ := 1700000000000

/-- The field list produced for the concrete dynamic input. -/
def sampleFields : List (String × String) :=
  ((BakongKHQR.createQRFields sampleOpts sampleNow).toOption).getD []

/-- The payload string produced for the concrete dynamic input. -/
def sampleQR : String :=
  ((BakongKHQR.createQR sampleOpts sampleNow).toOption).getD ""

/-- A concrete payment registration used to instantiate the monitor
theorems. -/
def samplePayment : AutoPaymentMonitor.PaymentData :=
  { md5Hash := "F", billNumber := "B1", amount := 5, currency := "USD",
    storeLabel := "S", qrCode := "Q" }

/-- The same fingerprint registered again with a different amount. -/
def samplePayment2 : AutoPaymentMonitor.PaymentData :=
  { samplePayment with amount := 7 }

/-- The monitor state after registering samplePayment at time 0. -/
def sampleMState : AutoPaymentMonitor.MState :=
  AutoPaymentMonitor.addPayment samplePayment "sess" 0 AutoPaymentMonitor.initState

namespace BakongKHQR

theorem validateLength_bind_err {α : Type} (v : String) (m : ℕ) (n : String)
    (f : Unit → Except String α) (h : m < v.length) :
    (validateLength v m n >>= f) = Except.error (lengthErrorMsg n m v.length) := by
  unfold validateLength
  rw [if_pos h]
  rfl

theorem validateLength_bind_ok {α : Type} (v : String) (m : ℕ) (n : String)
    (f : Unit → Except String α) (h : v.length ≤ m) :
    (validateLength v m n >>= f) = f () := by
  unfold validateLength
  rw [if_neg (by omega)]
  rfl

theorem validateLength_bind_ok_iff {α : Type} (v : String) (m : ℕ) (n : String)
    (f : Unit → Except String α) (x : α) :
    (validateLength v m n >>= f) = Except.ok x ↔ v.length ≤ m ∧ f () = Except.ok x := by
  unfold validateLength
  split
  · simp only [show ∀ e, (Except.error e >>= f) = (Except.error e : Except String α) from
      fun _ => rfl]
    constructor
    · intro h
      cases h
    · intro h
      omega
  · simp only [show (Except.ok () >>= f) = f () from rfl]
    constructor
    · intro h
      exact ⟨by omega, h⟩
    · intro h
      exact h.2

theorem string_append_empty (s : String) : s ++ "" = s := by
  cases s with
  | mk data =>
    show String.mk (data ++ []) = String.mk data
    rw [List.append_nil]

theorem string_empty_append (s : String) : "" ++ s = s := by
  cases s with
  | mk data => rfl

theorem padStart_length (t : ℕ) (c : Char) (s : String) :
    (padStart t c s).length = max t s.length := by
  unfold padStart
  rw [String.length_append]
  show (List.replicate (t - s.length) c).length + s.length = max t s.length
  rw [List.length_replicate]
  omega

theorem padStart_data (t : ℕ) (c : Char) (s : String) :
    (padStart t c s).data = List.replicate (t - s.length) c ++ s.data := by
  unfold padStart
  rw [String.data_append]

theorem crc16Round_lt (r : ℕ) : crc16Round r < 65536 := by
  unfold crc16Round
  exact Nat.mod_lt _ (by omega)

theorem crc16Step_lt (r : ℕ) (c : Char) : crc16Step r c < 65536 := by
  unfold crc16Step
  rw [Function.iterate_succ_apply' crc16Round 7]
  exact crc16Round_lt _

theorem crc16_foldl_lt (l : List Char) (r : ℕ) (h : r < 65536) :
    l.foldl crc16Step r < 65536 := by
  induction l generalizing r with
  | nil => exact h
  | cons c t ih => exact ih _ (crc16Step_lt r c)

theorem crc16_lt (s : String) : crc16 s < 65536 := by
  unfold crc16
  exact crc16_foldl_lt _ _ (by omega)

theorem toHexCore_length_le :
    ∀ (k fuel n : ℕ), n < 16 ^ (k + 1) → (toHexCore fuel n).length ≤ k + 1 := by
  intro k
  induction k with
  | zero =>
    intro fuel n h
    cases fuel with
    | zero => simp [toHexCore]
    | succ fuel =>
      simp only [toHexCore]
      rw [if_pos (by simpa using h)]
      simp
  | succ k ih =>
    intro fuel n h
    cases fuel with
    | zero => simp [toHexCore]
    | succ fuel =>
      simp only [toHexCore]
      split
      · simp
      · rw [List.length_append]
        have hdiv : n / 16 < 16 ^ (k + 1) := by
          rw [Nat.div_lt_iff_lt_mul (by omega)]
          calc n < 16 ^ (k + 2) := h
          _ = 16 ^ (k + 1) * 16 := by ring
        have := ih fuel (n / 16) hdiv
        simp only [List.length_singleton]
        omega

theorem hexDigitChar16_mem : ∀ m : ℕ, m < 16 → hexDigitChar16 m ∈ ("0123456789ABCDEF").data := by
  decide

theorem toHexCore_mem :
    ∀ (fuel n : ℕ), ∀ c ∈ toHexCore fuel n, c ∈ ("0123456789ABCDEF").data := by
  intro fuel
  induction fuel with
  | zero =>
    intro n c hc
    simp [toHexCore] at hc
  | succ fuel ih =>
    intro n c hc
    simp only [toHexCore] at hc
    split at hc
    · rw [List.mem_singleton] at hc
      subst hc
      exact hexDigitChar16_mem _ (by omega)
    · rw [List.mem_append, List.mem_singleton] at hc
      rcases hc with hc | hc
      · exact ih _ c hc
      · subst hc
        exact hexDigitChar16_mem _ (Nat.mod_lt _ (by omega))

theorem generateCRC16_length (s : String) : (generateCRC16 s).length = 4 := by
  unfold generateCRC16
  rw [padStart_length]
  have h4 : (toHexCore (crc16 s + 1) (crc16 s)).length ≤ 4 :=
    toHexCore_length_le 3 (crc16 s + 1) (crc16 s) (by simpa using crc16_lt s)
  have : (toHexUpper (crc16 s)).length ≤ 4 := by
    unfold toHexUpper
    exact h4
  omega

theorem generateCRC16_mem (s : String) :
    ∀ c ∈ (generateCRC16 s).data, c ∈ ("0123456789ABCDEF").data := by
  intro c hc
  unfold generateCRC16 at hc
  rw [padStart_data, List.mem_append] at hc
  rcases hc with hc | hc
  · rw [List.eq_of_mem_replicate hc]
    decide
  · exact toHexCore_mem _ _ c hc

theorem crc16Round_eq_spec (r : ℕ) : crc16Round r = crc16SpecRound r := by
  unfold crc16Round crc16SpecRound
  rw [Nat.shiftLeft_eq, pow_one, Nat.testBit_to_div_mod]
  norm_num

theorem crc16_eq_spec (s : String) : crc16 s = crc16Spec s := by
  unfold crc16 crc16Spec
  congr 1
  funext r c
  unfold crc16Step
  rw [funext crc16Round_eq_spec, Nat.shiftLeft_eq]

theorem error_bind {α β : Type} (e : String) (k : α → Except String β) :
    (Except.error e >>= k) = Except.error e := rfl

theorem ok_bind {α β : Type} (a : α) (k : α → Except String β) :
    (Except.ok a >>= k) = k a := rfl

theorem timestamp_eq (now : ℕ) :
    timestamp now = formatValue "99" (timestampValue now) := rfl

theorem formatValue_63 (v : String) (h : v.length = 4) :
    formatValue "63" v = "6304" ++ v := by
  unfold formatValue
  rw [h]
  rfl

theorem renderFields_append (l1 l2 : List (String × String)) :
    renderFields (l1 ++ l2) = renderFields l1 ++ renderFields l2 := by
  induction l1 with
  | nil => exact (string_empty_append _).symm
  | cons p t ih =>
    show formatValue p.1 p.2 ++ renderFields (t ++ l2) = _
    rw [ih, ← String.append_assoc]
    rfl

theorem qrData_eq_renderFields (o : QROptions) (now : ℕ) :
    payloadFormatIndicator ++ pointOfInitiation o.isStatic ++
      formatValue "29" (formatValue "00" o.bankAccount) ++ merchantCategoryCode ++
      countryCode ++ formatValue "59" o.merchantName ++ formatValue "60" o.merchantCity ++
      timestamp now ++
      (if o.isStatic then "" else formatValue "54" (paddedAmount o.amountCents)) ++
      transactionCurrency o.currency ++
      formatValue "62" (additionalDataValue o.storeLabel o.phoneNumber o.billNumber
        o.terminalLabel) =
    renderFields (baseFields o now) := by
  unfold baseFields
  rw [renderFields_append, renderFields_append]
  cases o.isStatic with
  | false =>
    simp only [Bool.false_eq_true, if_false, reduceIte]
    simp [renderFields, payloadFormatIndicator, pointOfInitiation, merchantCategoryCode,
      countryCode, transactionCurrency, timestamp_eq, String.append_assoc,
      string_append_empty, string_empty_append]
  | true =>
    simp only [if_true, reduceIte]
    simp [renderFields, payloadFormatIndicator, pointOfInitiation, merchantCategoryCode,
      countryCode, transactionCurrency, timestamp_eq, String.append_assoc,
      string_append_empty, string_empty_append]

theorem map_pure_except {α β : Type} (f : α → β) (x : α) :
    Except.map f (pure x : Except String α) = pure (f x) := rfl

set_option maxHeartbeats 2000000 in
theorem createQR_eq_renderFields (o : QROptions) (now : ℕ) :
    createQR o now = (createQRFields o now).map renderFields := by
  unfold createQR createQRFields globalUniqueIdentifier merchantName merchantCity
    amount additionalDataField
  simp only [bind_assoc, pure_bind]
  rcases le_or_lt o.bankAccount.length 32 with hba | hba
  case inr =>
    rw [validateLength_bind_err _ _ _ _ hba, validateLength_bind_err _ _ _ _ hba]
    rfl
  rw [validateLength_bind_ok _ _ _ _ hba, validateLength_bind_ok _ _ _ _ hba]
  rcases le_or_lt o.merchantName.length 25 with hmn | hmn
  case inr =>
    rw [validateLength_bind_err _ _ _ _ hmn, validateLength_bind_err _ _ _ _ hmn]
    rfl
  rw [validateLength_bind_ok _ _ _ _ hmn, validateLength_bind_ok _ _ _ _ hmn]
  rcases le_or_lt o.merchantCity.length 15 with hmc | hmc
  case inr =>
    rw [validateLength_bind_err _ _ _ _ hmc, validateLength_bind_err _ _ _ _ hmc]
    rfl
  rw [validateLength_bind_ok _ _ _ _ hmc, validateLength_bind_ok _ _ _ _ hmc]
  cases hst : o.isStatic with
  | true =>
    simp only [reduceIte, pure_bind]
    rcases le_or_lt o.billNumber.length 25 with hbi | hbi
    case inr =>
      rw [validateLength_bind_err _ _ _ _ hbi, validateLength_bind_err _ _ _ _ hbi]
      rfl
    rw [validateLength_bind_ok _ _ _ _ hbi, validateLength_bind_ok _ _ _ _ hbi]
    rcases le_or_lt o.phoneNumber.length 25 with hph | hph
    case inr =>
      rw [validateLength_bind_err _ _ _ _ hph, validateLength_bind_err _ _ _ _ hph]
      rfl
    rw [validateLength_bind_ok _ _ _ _ hph, validateLength_bind_ok _ _ _ _ hph]
    rcases le_or_lt o.storeLabel.length 25 with hsl | hsl
    case inr =>
      rw [validateLength_bind_err _ _ _ _ hsl, validateLength_bind_err _ _ _ _ hsl]
      rfl
    rw [validateLength_bind_ok _ _ _ _ hsl, validateLength_bind_ok _ _ _ _ hsl]
    rcases le_or_lt o.terminalLabel.length 25 with htl | htl
    case inr =>
      rw [validateLength_bind_err _ _ _ _ htl, validateLength_bind_err _ _ _ _ htl]
      rfl
    rw [validateLength_bind_ok _ _ _ _ htl, validateLength_bind_ok _ _ _ _ htl]
    rw [map_pure_except]
    have hbase := qrData_eq_renderFields o now
    rw [hst] at hbase
    rw [if_pos rfl] at hbase
    congr 1
    rw [renderFields_append]
    have h63 : renderFields
        [("63", generateCRC16 (renderFields (baseFields o now) ++ "6304"))] =
        "6304" ++ generateCRC16 (renderFields (baseFields o now) ++ "6304") := by
      show formatValue "63" _ ++ "" = _
      rw [string_append_empty, formatValue_63 _ (generateCRC16_length _)]
    rw [h63, ← hbase]
    unfold crc
    simp [string_append_empty, string_empty_append, String.append_assoc]
  | false =>
    simp only [Bool.false_eq_true, reduceIte]
    rcases le_or_lt (paddedAmount o.amountCents).length 14 with ham | ham
    case inr =>
      rw [validateLength_bind_err _ _ _ _ ham, validateLength_bind_err _ _ _ _ ham]
      rfl
    rw [validateLength_bind_ok _ _ _ _ ham, validateLength_bind_ok _ _ _ _ ham]
    rcases le_or_lt o.billNumber.length 25 with hbi | hbi
    case inr =>
      rw [validateLength_bind_err _ _ _ _ hbi, validateLength_bind_err _ _ _ _ hbi]
      rfl
    rw [validateLength_bind_ok _ _ _ _ hbi, validateLength_bind_ok _ _ _ _ hbi]
    rcases le_or_lt o.phoneNumber.length 25 with hph | hph
    case inr =>
      rw [validateLength_bind_err _ _ _ _ hph, validateLength_bind_err _ _ _ _ hph]
      rfl
    rw [validateLength_bind_ok _ _ _ _ hph, validateLength_bind_ok _ _ _ _ hph]
    rcases le_or_lt o.storeLabel.length 25 with hsl | hsl
    case inr =>
      rw [validateLength_bind_err _ _ _ _ hsl, validateLength_bind_err _ _ _ _ hsl]
      rfl
    rw [validateLength_bind_ok _ _ _ _ hsl, validateLength_bind_ok _ _ _ _ hsl]
    rcases le_or_lt o.terminalLabel.length 25 with htl | htl
    case inr =>
      rw [validateLength_bind_err _ _ _ _ htl, validateLength_bind_err _ _ _ _ htl]
      rfl
    rw [validateLength_bind_ok _ _ _ _ htl, validateLength_bind_ok _ _ _ _ htl]
    rw [map_pure_except]
    have hbase := qrData_eq_renderFields o now
    rw [hst] at hbase
    rw [if_neg (by simp)] at hbase
    congr 1
    rw [renderFields_append]
    have h63 : renderFields
        [("63", generateCRC16 (renderFields (baseFields o now) ++ "6304"))] =
        "6304" ++ generateCRC16 (renderFields (baseFields o now) ++ "6304") := by
      show formatValue "63" _ ++ "" = _
      rw [string_append_empty, formatValue_63 _ (generateCRC16_length _)]
    rw [h63, ← hbase]
    unfold crc
    simp [string_append_empty, string_empty_append, String.append_assoc]

set_option maxHeartbeats 1000000 in
theorem frac_digits : ∀ m : ℕ, m < 100 →
    (padStart 2 '0' (toString m)).data =
      [Char.ofNat (48 + m / 10), Char.ofNat (48 + m % 10)] := by
  decide

theorem digit_ne : ∀ d : ℕ, d < 10 → 0 < d →
    Char.ofNat (48 + d) ≠ '0' ∧ Char.ofNat (48 + d) ≠ '.' := by
  decide

theorem toFixed2_data (c : ℕ) :
    (toFixed2 c).data =
      (toString (c / 100)).data ++ '.' :: (padStart 2 '0' (toString (c % 100))).data := by
  unfold toFixed2
  rw [String.data_append, String.data_append]
  simp

theorem stripTrailing_case_zero (I : String) :
    stripTrailing (String.mk (I.data ++ ['.', '0', '0'])) = I := by
  unfold stripTrailing
  show String.mk (stripRev ((I.data ++ ['.', '0', '0']).reverse)).reverse = I
  rw [List.reverse_append]
  show String.mk (stripRev ('0' :: '0' :: '.' :: I.data.reverse)).reverse = I
  rw [show stripRev ('0' :: '0' :: '.' :: I.data.reverse) = I.data.reverse by
    simp [stripRev, stripRevZeros]]
  rw [List.reverse_reverse]

theorem stripTrailing_case_mid (I : String) (d : Char) (hd0 : d ≠ '0')
    (hdd : d ≠ '.') :
    stripTrailing (String.mk (I.data ++ ['.', d, '0'])) =
      String.mk (I.data ++ ['.', d]) := by
  unfold stripTrailing
  show String.mk (stripRev ((I.data ++ ['.', d, '0']).reverse)).reverse = _
  rw [List.reverse_append]
  show String.mk (stripRev ('0' :: d :: '.' :: I.data.reverse)).reverse = _
  rw [show stripRev ('0' :: d :: '.' :: I.data.reverse) = d :: '.' :: I.data.reverse by
    simp [stripRev, stripRevZeros, hd0, hdd]]
  simp

theorem stripTrailing_case_keep (I : String) (d1 d2 : Char) (h2 : d2 ≠ '0') :
    stripTrailing (String.mk (I.data ++ ['.', d1, d2])) =
      String.mk (I.data ++ ['.', d1, d2]) := by
  unfold stripTrailing
  show String.mk (stripRev ((I.data ++ ['.', d1, d2]).reverse)).reverse = _
  rw [List.reverse_append]
  show String.mk (stripRev (d2 :: d1 :: '.' :: I.data.reverse)).reverse = _
  rw [show stripRev (d2 :: d1 :: '.' :: I.data.reverse) =
      d2 :: d1 :: '.' :: I.data.reverse by simp [stripRev, h2]]
  simp

theorem toFixed2_eq_mk (c : ℕ) :
    toFixed2 c = String.mk ((toString (c / 100)).data ++
      ['.', Char.ofNat (48 + c % 100 / 10), Char.ofNat (48 + c % 100 % 10)]) := by
  apply String.ext
  rw [toFixed2_data, frac_digits (c % 100) (Nat.mod_lt _ (by omega))]

theorem createQRFields_ok_shape (o : QROptions) (now : ℕ)
    (fs : List (String × String)) (h : createQRFields o now = Except.ok fs) :
    fs = baseFields o now ++
      [("63", generateCRC16 (renderFields (baseFields o now) ++ "6304"))] := by
  unfold createQRFields at h
  rw [validateLength_bind_ok_iff] at h
  obtain ⟨-, h⟩ := h
  rw [validateLength_bind_ok_iff] at h
  obtain ⟨-, h⟩ := h
  rw [validateLength_bind_ok_iff] at h
  obtain ⟨-, h⟩ := h
  cases hst : o.isStatic with
  | true =>
    rw [hst] at h
    simp only [reduceIte, pure_bind] at h
    rw [validateLength_bind_ok_iff] at h
    obtain ⟨-, h⟩ := h
    rw [validateLength_bind_ok_iff] at h
    obtain ⟨-, h⟩ := h
    rw [validateLength_bind_ok_iff] at h
    obtain ⟨-, h⟩ := h
    rw [validateLength_bind_ok_iff] at h
    obtain ⟨-, h⟩ := h
    exact (Except.ok.inj h).symm
  | false =>
    rw [hst] at h
    simp only [Bool.false_eq_true, reduceIte] at h
    rw [validateLength_bind_ok_iff] at h
    obtain ⟨-, h⟩ := h
    rw [validateLength_bind_ok_iff] at h
    obtain ⟨-, h⟩ := h
    rw [validateLength_bind_ok_iff] at h
    obtain ⟨-, h⟩ := h
    rw [validateLength_bind_ok_iff] at h
    obtain ⟨-, h⟩ := h
    rw [validateLength_bind_ok_iff] at h
    obtain ⟨-, h⟩ := h
    exact (Except.ok.inj h).symm

end BakongKHQR

namespace BakongKHQR

/-- C1 counterexample: the code maps amount 10.50 (1050 cents) to the
padded value "000000010.5", not to the value "00000001050" pinned by the
claim: the regex strips the trailing zero of "10.50" but keeps the
decimal point, because the fractional part is still significant. -/
theorem amount_formatting_cex :
    amount 1050 = Except.ok (formatValue "54" "000000010.5") ∧
    ("000000010.5" : String) ≠ "00000001050" := by
  constructor
  · rfl
  · decide

/-- C1 (amended): for every amount accepted by a dynamic encode, the
amount value is produced by rendering the amount with exactly two
decimals, then stripping the trailing fractional zeros — together with
the decimal point exactly when the whole fractional part is zero, while
a significant fractional digit keeps the decimal point — and left
padding with zeros to 11 characters; 10.50 therefore yields
"000000010.5" and 10.00 yields "00000000010". -/
theorem amount_formatting (cents : ℕ) :
    (cents % 100 = 0 →
      stripTrailing (toFixed2 cents) = toString (cents / 100)) ∧
    (cents % 100 ≠ 0 → cents % 10 = 0 →
      stripTrailing (toFixed2 cents) = String.mk (toFixed2 cents).data.dropLast) ∧
    (cents % 10 ≠ 0 → stripTrailing (toFixed2 cents) = toFixed2 cents) ∧
    paddedAmount cents = padStart 11 '0' (stripTrailing (toFixed2 cents)) ∧
    amount 1050 = Except.ok (formatValue "54" "000000010.5") ∧
    amount 1000 = Except.ok (formatValue "54" "00000000010") := by
  have hmklt : cents % 100 < 100 := Nat.mod_lt _ (by omega)
  have h10 : cents % 100 % 10 = cents % 10 :=
    Nat.mod_mod_of_dvd cents (by norm_num)
  have hdiv10 : cents % 100 / 10 < 10 := by omega
  refine ⟨?_, ?_, ?_, rfl, by rfl, by rfl⟩
  · intro h0
    rw [toFixed2_eq_mk]
    rw [show cents % 100 / 10 = 0 by omega, show cents % 100 % 10 = 0 by omega]
    rw [show Char.ofNat (48 + 0) = '0' by decide]
    exact stripTrailing_case_zero _
  · intro h100 h1
    have hd : 0 < cents % 100 / 10 := by omega
    have hmod0 : cents % 100 % 10 = 0 := by omega
    rw [toFixed2_eq_mk, hmod0]
    rw [show Char.ofNat (48 + 0) = '0' by decide]
    obtain ⟨hne0, hned⟩ := digit_ne (cents % 100 / 10) hdiv10 hd
    rw [stripTrailing_case_mid _ _ hne0 hned]
    apply String.ext
    show (toString (cents / 100)).data ++ ['.', Char.ofNat (48 + cents % 100 / 10)] =
      ((toString (cents / 100)).data ++
        ['.', Char.ofNat (48 + cents % 100 / 10), '0']).dropLast
    rw [show (toString (cents / 100)).data ++
        ['.', Char.ofNat (48 + cents % 100 / 10), '0'] =
        ((toString (cents / 100)).data ++
          ['.', Char.ofNat (48 + cents % 100 / 10)]) ++ ['0'] by simp]
    rw [List.dropLast_concat]
  · intro h1
    have hd : 0 < cents % 100 % 10 := by
      omega
    rw [toFixed2_eq_mk]
    obtain ⟨hne0, -⟩ := digit_ne (cents % 100 % 10) (by omega) hd
    rw [stripTrailing_case_keep _ _ _ hne0]

/-- C1 witness: the amended formatting characterization applied at the
concrete amounts 10.50 and 10.00. -/
theorem amount_formatting_witness :
    stripTrailing (toFixed2 1050) = String.mk (toFixed2 1050).data.dropLast ∧
    stripTrailing (toFixed2 1000) = toString (1000 / 100) :=
  ⟨(amount_formatting 1050).2.1 (by decide) (by decide),
   (amount_formatting 1000).1 (by decide)⟩

set_option maxRecDepth 8000 in
/-- C3: generateCRC16 agrees on every input with the spec-worded
CRC-16/CCITT-FALSE fold (initial register 0xFFFF, polynomial 0x1021,
code point XORed into the high byte, eight shift rounds masked to 16
bits, no final XOR and no reflection), its output is always exactly 4
characters drawn from the uppercase hexadecimal alphabet, and a fixed
known vector matches; determinism is immediate because the engine is a
pure function of its input. -/
theorem crc16_wellformed (s : String) :
    generateCRC16 s = padStart 4 '0' (toHexUpper (crc16Spec s)) ∧
    (generateCRC16 s).length = 4 ∧
    (∀ c ∈ (generateCRC16 s).data, c ∈ ("0123456789ABCDEF").data) ∧
    generateCRC16 "123456789" = "29B1" := by
  refine ⟨?_, generateCRC16_length s, generateCRC16_mem s, by rfl⟩
  unfold generateCRC16
  rw [crc16_eq_spec]

set_option maxRecDepth 8000 in
/-- C3 witness: the CRC shape theorem applied at the known-vector
input, with the character-set condition discharged at a concrete
character. -/
theorem crc16_wellformed_witness :
    (BakongKHQR.generateCRC16 "123456789").length = 4 ∧
    '2' ∈ ("0123456789ABCDEF").data :=
  ⟨(crc16_wellformed "123456789").2.1,
   (crc16_wellformed "123456789").2.2.1 '2' (by decide)⟩

/-- C5: every variable-length attribute is guarded by its ceiling
(merchant name 25, merchant city 15, bank account 32, bill number 25,
phone number 25, store label 25, terminal label 25, padded amount
string 14): a longer value makes the builder fail with the length error
naming the field, the actual length and the ceiling, before any Field
is constructed and without truncation, while a value within the ceiling
produces the formatted Field. -/
theorem length_guards (s : String) :
    (25 < s.length → merchantName s =
      Except.error (lengthErrorMsg "Merchant name" 25 s.length)) ∧
    (s.length ≤ 25 → merchantName s = Except.ok (formatValue "59" s)) ∧
    (15 < s.length → merchantCity s =
      Except.error (lengthErrorMsg "Merchant city" 15 s.length)) ∧
    (s.length ≤ 15 → merchantCity s = Except.ok (formatValue "60" s)) ∧
    (32 < s.length → globalUniqueIdentifier s =
      Except.error (lengthErrorMsg "Bank account" 32 s.length)) ∧
    (s.length ≤ 32 → globalUniqueIdentifier s =
      Except.ok (formatValue "29" (formatValue "00" s))) ∧
    (∀ store phone bill terminal : String,
      (25 < bill.length → additionalDataField store phone bill terminal =
        Except.error (lengthErrorMsg "Bill number" 25 bill.length)) ∧
      (bill.length ≤ 25 → 25 < phone.length →
        additionalDataField store phone bill terminal =
          Except.error (lengthErrorMsg "Phone number" 25 phone.length)) ∧
      (bill.length ≤ 25 → phone.length ≤ 25 → 25 < store.length →
        additionalDataField store phone bill terminal =
          Except.error (lengthErrorMsg "Store label" 25 store.length)) ∧
      (bill.length ≤ 25 → phone.length ≤ 25 → store.length ≤ 25 →
        25 < terminal.length →
        additionalDataField store phone bill terminal =
          Except.error (lengthErrorMsg "Terminal label" 25 terminal.length)) ∧
      (bill.length ≤ 25 → phone.length ≤ 25 → store.length ≤ 25 →
        terminal.length ≤ 25 →
        additionalDataField store phone bill terminal =
          Except.ok (formatValue "62"
            (additionalDataValue store phone bill terminal)))) ∧
    (∀ cents : ℕ,
      (14 < (paddedAmount cents).length → amount cents =
        Except.error (lengthErrorMsg "Amount" 14 (paddedAmount cents).length)) ∧
      ((paddedAmount cents).length ≤ 14 → amount cents =
        Except.ok (formatValue "54" (paddedAmount cents)))) := by
  refine ⟨?_, ?_, ?_, ?_, ?_, ?_, ?_, ?_⟩
  · intro h
    unfold merchantName
    exact validateLength_bind_err _ _ _ _ h
  · intro h
    unfold merchantName
    exact validateLength_bind_ok _ _ _ _ h
  · intro h
    unfold merchantCity
    exact validateLength_bind_err _ _ _ _ h
  · intro h
    unfold merchantCity
    exact validateLength_bind_ok _ _ _ _ h
  · intro h
    unfold globalUniqueIdentifier
    exact validateLength_bind_err _ _ _ _ h
  · intro h
    unfold globalUniqueIdentifier
    exact validateLength_bind_ok _ _ _ _ h
  · intro store phone bill terminal
    refine ⟨?_, ?_, ?_, ?_, ?_⟩
    · intro h
      unfold additionalDataField
      exact validateLength_bind_err _ _ _ _ h
    · intro h1 h
      unfold additionalDataField
      rw [validateLength_bind_ok _ _ _ _ h1]
      exact validateLength_bind_err _ _ _ _ h
    · intro h1 h2 h
      unfold additionalDataField
      rw [validateLength_bind_ok _ _ _ _ h1, validateLength_bind_ok _ _ _ _ h2]
      exact validateLength_bind_err _ _ _ _ h
    · intro h1 h2 h3 h
      unfold additionalDataField
      rw [validateLength_bind_ok _ _ _ _ h1, validateLength_bind_ok _ _ _ _ h2,
        validateLength_bind_ok _ _ _ _ h3]
      exact validateLength_bind_err _ _ _ _ h
    · intro h1 h2 h3 h4
      unfold additionalDataField
      rw [validateLength_bind_ok _ _ _ _ h1, validateLength_bind_ok _ _ _ _ h2,
        validateLength_bind_ok _ _ _ _ h3]
      exact validateLength_bind_ok _ _ _ _ h4
  · intro cents
    constructor
    · intro h
      unfold amount
      exact validateLength_bind_err _ _ _ _ h
    · intro h
      unfold amount
      exact validateLength_bind_ok _ _ _ _ h

/-- C5 witness: the guards applied at a 26-character value (rejected
with the exact message) and at a 25-character value (accepted), for the
merchant name. -/
theorem length_guards_witness :
    merchantName "aaaaaaaaaaaaaaaaaaaaaaaaaa" =
      Except.error (lengthErrorMsg "Merchant name" 25 26) ∧
    merchantName "aaaaaaaaaaaaaaaaaaaaaaaaa" =
      Except.ok (formatValue "59" "aaaaaaaaaaaaaaaaaaaaaaaaa") :=
  ⟨(length_guards "aaaaaaaaaaaaaaaaaaaaaaaaaa").1 (by decide),
   (length_guards "aaaaaaaaaaaaaaaaaaaaaaaaa").2.1 (by decide)⟩

/-- C4: whenever encoding succeeds, the payload is the rendering of the
assembled field list; for a dynamic input that list contains the
transaction-amount field (tag 54) with the transaction-currency field
(tag 53) immediately after it, and for a static input no field with the
amount tag appears anywhere in the payload. -/
theorem field_order_invariant (o : QROptions) (now : ℕ)
    (fs : List (String × String)) (h : createQRFields o now = Except.ok fs) :
    createQR o now = Except.ok (renderFields fs) ∧
    (o.isStatic = false → ∃ i : ℕ, (fs[i]?).map Prod.fst = some "54" ∧
      (fs[i + 1]?).map Prod.fst = some "53") ∧
    (o.isStatic = true → ∀ p ∈ fs, p.1 ≠ "54") := by
  have hshape := createQRFields_ok_shape o now fs h
  subst hshape
  refine ⟨?_, ?_, ?_⟩
  · rw [createQR_eq_renderFields, h]
    rfl
  · intro hst
    unfold baseFields
    rw [hst]
    refine ⟨8, ?_, ?_⟩ <;> simp
  · intro hst
    intro p hp
    have htags : (baseFields o now ++
        [("63", generateCRC16 (renderFields (baseFields o now) ++ "6304"))]).map
          Prod.fst =
        ["00", "01", "29", "52", "58", "59", "60", "99", "53", "62", "63"] := by
      unfold baseFields
      rw [hst]
      simp
    have hmem : p.1 ∈ (["00", "01", "29", "52", "58", "59", "60", "99", "53",
        "62", "63"] : List String) := by
      rw [← htags]
      exact List.mem_map_of_mem _ hp
    simp only [List.mem_cons, List.not_mem_nil, or_false] at hmem
    rcases hmem with h | h | h | h | h | h | h | h | h | h | h <;> rw [h] <;>
      decide

/-- C4 witness: the field-order invariant applied to the concrete
dynamic sample payload. -/
theorem field_order_invariant_witness :
    ∃ i : ℕ, ((sampleFields)[i]?).map Prod.fst = some "54" ∧
      ((sampleFields)[i + 1]?).map Prod.fst = some "53" :=
  (field_order_invariant sampleOpts sampleNow sampleFields (by rfl)).2.1 (by rfl)

/-- C6: every successful payload splits into a body followed by the
terminal checksum field, whose value is the CRC-16 of the body with the
fixed checksum-tag placeholder "6304" appended first, and the terminal
field itself is the checksum tag "63", the fixed length "04", and the
4-hex-digit CRC value. -/
theorem checksum_terminal_field (o : QROptions) (now : ℕ) (q : String)
    (h : createQR o now = Except.ok q) :
    ∃ body : String,
      q = body ++ formatValue "63" (generateCRC16 (body ++ "6304")) ∧
      formatValue "63" (generateCRC16 (body ++ "6304")) =
        "63" ++ "04" ++ generateCRC16 (body ++ "6304") ∧
      (generateCRC16 (body ++ "6304")).length = 4 := by
  rw [createQR_eq_renderFields] at h
  cases hf : createQRFields o now with
  | error e =>
    rw [hf] at h
    simp [Except.map] at h
  | ok fs =>
    rw [hf] at h
    have hshape := createQRFields_ok_shape o now fs hf
    subst hshape
    have hq : q = renderFields (baseFields o now ++
        [("63", generateCRC16 (renderFields (baseFields o now) ++ "6304"))]) := by
      simpa [Except.map] using h.symm
    refine ⟨renderFields (baseFields o now), ?_, ?_, generateCRC16_length _⟩
    · rw [hq, renderFields_append]
      show _ ++ (formatValue "63" _ ++ "") = _
      rw [string_append_empty]
    · rw [formatValue_63 _ (generateCRC16_length _)]
      rfl

/-- C6 witness: the checksum decomposition applied to the concrete
dynamic sample payload. -/
theorem checksum_terminal_field_witness :
    ∃ body : String,
      sampleQR = body ++ BakongKHQR.formatValue "63"
        (BakongKHQR.generateCRC16 (body ++ "6304")) ∧
      BakongKHQR.formatValue "63" (BakongKHQR.generateCRC16 (body ++ "6304")) =
        "63" ++ "04" ++ BakongKHQR.generateCRC16 (body ++ "6304") ∧
      (BakongKHQR.generateCRC16 (body ++ "6304")).length = 4 :=
  checksum_terminal_field sampleOpts sampleNow sampleQR (by rfl)

end BakongKHQR

namespace AutoPaymentMonitor

theorem getA_setA_self {α : Type} (l : List (String × α)) (k : String) (v : α) :
    getA (setA l k v) k = some v := by
  induction l with
  | nil => simp [getA, setA]
  | cons p t ih =>
    by_cases h : p.1 = k
    · simp [getA, setA, h]
    · simp [getA, setA, h, ih]

theorem getA_eraseA_self {α : Type} (l : List (String × α)) (k : String) :
    getA (eraseA l k) k = none := by
  induction l with
  | nil => simp [getA, eraseA]
  | cons p t ih =>
    by_cases h : p.1 = k
    · simp [eraseA, h, ih]
    · simp [getA, eraseA, h, ih]

theorem mem_setA {α : Type} {p : String × α} {l : List (String × α)}
    {k : String} {v : α} (h : p ∈ setA l k v) : p ∈ l ∨ p = (k, v) := by
  induction l with
  | nil =>
    simp [setA] at h
    right
    exact h
  | cons q t ih =>
    obtain ⟨qk, qv⟩ := q
    by_cases hq : qk = k
    · rw [show setA ((qk, qv) :: t) k v = (qk, v) :: t by simp [setA, hq]] at h
      rcases List.mem_cons.mp h with h | h
      · right
        rw [h, hq]
      · left
        exact List.mem_cons_of_mem _ h
    · rw [show setA ((qk, qv) :: t) k v = (qk, qv) :: setA t k v by
        simp [setA, hq]] at h
      rcases List.mem_cons.mp h with h | h
      · left
        rw [h]
        exact List.mem_cons_self _ _
      · rcases ih h with h | h
        · left
          exact List.mem_cons_of_mem _ h
        · right
          exact h

theorem mem_eraseA {α : Type} {p : String × α} {l : List (String × α)}
    {k : String} (h : p ∈ eraseA l k) : p ∈ l := by
  induction l with
  | nil => simp [eraseA] at h
  | cons q t ih =>
    obtain ⟨qk, qv⟩ := q
    by_cases hq : qk = k
    · rw [show eraseA ((qk, qv) :: t) k = eraseA t k by simp [eraseA, hq]] at h
      exact List.mem_cons_of_mem _ (ih h)
    · rw [show eraseA ((qk, qv) :: t) k = (qk, qv) :: eraseA t k by
        simp [eraseA, hq]] at h
      rcases List.mem_cons.mp h with h | h
      · rw [h]
        exact List.mem_cons_self _ _
      · exact List.mem_cons_of_mem _ (ih h)

theorem getA_mem {α : Type} {l : List (String × α)} {k : String} {v : α}
    (h : getA l k = some v) : (k, v) ∈ l := by
  induction l with
  | nil => simp [getA] at h
  | cons q t ih =>
    obtain ⟨qk, qv⟩ := q
    by_cases hq : qk = k
    · rw [show getA ((qk, qv) :: t) k = some qv by simp [getA, hq]] at h
      have hv : qv = v := Option.some.inj h
      rw [show ((k, v) : String × α) = (qk, qv) by rw [hq, hv]]
      exact List.mem_cons_self _ _
    · rw [show getA ((qk, qv) :: t) k = getA t k by simp [getA, hq]] at h
      exact List.mem_cons_of_mem _ (ih h)

theorem not_mem_eraseS (l : List String) (x : String) : x ∉ eraseS l x := by
  induction l with
  | nil => simp [eraseS]
  | cons y t ih =>
    by_cases hy : y = x
    · simpa [eraseS, hy] using ih
    · simp only [eraseS, if_neg hy, List.mem_cons]
      rintro (h | h)
      · exact hy h.symm
      · exact ih h

theorem mem_addS (l : List String) (x : String) : x ∈ addS l x := by
  unfold addS
  split
  · assumption
  · simp

theorem noPaid_setA {l : List (String × MonitorInfo)} {k : String} {v : MonitorInfo}
    (h : ∀ p ∈ l, p.2.status ≠ "PAID") (hv : v.status ≠ "PAID") :
    ∀ p ∈ setA l k v, p.2.status ≠ "PAID" := by
  intro p hp
  rcases mem_setA hp with hp | hp
  · exact h p hp
  · rw [hp]
    exact hv

theorem noPaid_removePayment (s : MState) (md5Hash : String)
    (h : ∀ p ∈ s.activeMonitors, p.2.status ≠ "PAID") :
    ∀ p ∈ (removePayment md5Hash s).activeMonitors, p.2.status ≠ "PAID" := by
  intro p hp
  unfold removePayment at hp
  cases hg : getA s.activeMonitors md5Hash with
  | none =>
    rw [hg] at hp
    exact h p hp
  | some info =>
    rw [hg] at hp
    exact h p (mem_eraseA hp)

theorem checkSinglePayment_eq_none {s : MState} {md5Hash : String}
    (r : CheckResult) (now : ℕ) (hg : getA s.activeMonitors md5Hash = none) :
    checkSinglePayment md5Hash r now s = s := by
  unfold checkSinglePayment
  rw [hg]

theorem checkSinglePayment_eq_expired {s : MState} {md5Hash : String}
    {info : MonitorInfo} (r : CheckResult) {now : ℕ}
    (hg : getA s.activeMonitors md5Hash = some info)
    (hexp : maxMonitorTime < now - info.startTime) :
    checkSinglePayment md5Hash r now s = expirePayment md5Hash info s := by
  unfold checkSinglePayment
  rw [hg]
  show (if maxMonitorTime < now - info.startTime then expirePayment md5Hash info s
    else _) = _
  rw [if_pos hexp]

theorem checkSinglePayment_eq_paid {s : MState} {md5Hash : String}
    {info : MonitorInfo} {now : ℕ}
    (hg : getA s.activeMonitors md5Hash = some info)
    (hfr : now - info.startTime ≤ maxMonitorTime) :
    checkSinglePayment md5Hash (CheckResult.ok "PAID") now s =
      handlePaymentSuccess md5Hash
        { info with checkCount := info.checkCount + 1, lastCheck := now }
        { s with
          activeMonitors := setA s.activeMonitors md5Hash { info with checkCount := info.checkCount + 1, lastCheck := now } } := by
  unfold checkSinglePayment
  rw [hg]
  show (if maxMonitorTime < now - info.startTime then expirePayment md5Hash info s
    else _) = _
  rw [if_neg (not_lt.mpr hfr)]
  rfl

theorem checkSinglePayment_eq_other {s : MState} {md5Hash : String}
    {info : MonitorInfo} {now : ℕ} {st : String}
    (hg : getA s.activeMonitors md5Hash = some info)
    (hfr : now - info.startTime ≤ maxMonitorTime) (hst : st ≠ "PAID") :
    checkSinglePayment md5Hash (CheckResult.ok st) now s =
      { s with
        activeMonitors := setA s.activeMonitors md5Hash { info with checkCount := info.checkCount + 1, lastCheck := now, status := st } } := by
  unfold checkSinglePayment
  rw [hg]
  show (if maxMonitorTime < now - info.startTime then expirePayment md5Hash info s
    else _) = _
  rw [if_neg (not_lt.mpr hfr)]
  show (if st = "PAID" then _ else _) = _
  rw [if_neg hst]

theorem checkSinglePayment_eq_err {s : MState} {md5Hash : String}
    {info : MonitorInfo} {now : ℕ} (msg : String)
    (hg : getA s.activeMonitors md5Hash = some info)
    (hfr : now - info.startTime ≤ maxMonitorTime) :
    checkSinglePayment md5Hash (CheckResult.err msg) now s =
      { s with
        activeMonitors := setA s.activeMonitors md5Hash { info with checkCount := info.checkCount + 1, lastCheck := now } } := by
  unfold checkSinglePayment
  rw [hg]
  show (if maxMonitorTime < now - info.startTime then expirePayment md5Hash info s
    else _) = _
  rw [if_neg (not_lt.mpr hfr)]

theorem noPaid_checkSinglePayment (s : MState) (md5Hash : String)
    (r : CheckResult) (now : ℕ)
    (h : ∀ p ∈ s.activeMonitors, p.2.status ≠ "PAID") :
    ∀ p ∈ (checkSinglePayment md5Hash r now s).activeMonitors,
      p.2.status ≠ "PAID" := by
  cases hg : getA s.activeMonitors md5Hash with
  | none =>
    rw [checkSinglePayment_eq_none r now hg]
    exact h
  | some info =>
    have hinfo : info.status ≠ "PAID" := h (md5Hash, info) (getA_mem hg)
    by_cases hexp : maxMonitorTime < now - info.startTime
    · rw [checkSinglePayment_eq_expired r hg hexp]
      intro p hp
      exact noPaid_removePayment s md5Hash h p hp
    · have hfr : now - info.startTime ≤ maxMonitorTime := not_lt.mp hexp
      cases r with
      | ok st =>
        by_cases hst : st = "PAID"
        · subst hst
          rw [checkSinglePayment_eq_paid hg hfr]
          intro p hp
          refine noPaid_removePayment _ md5Hash ?_ p hp
          intro q hq
          refine noPaid_setA h ?_ q hq
          exact hinfo
        · rw [checkSinglePayment_eq_other hg hfr hst]
          intro p hp
          refine noPaid_setA h ?_ p hp
          exact hst
      | err msg =>
        rw [checkSinglePayment_eq_err msg hg hfr]
        intro p hp
        refine noPaid_setA h ?_ p hp
        exact hinfo

theorem noPaid_applyOp (s : MState) (op : MOp)
    (h : ∀ p ∈ s.activeMonitors, p.2.status ≠ "PAID") :
    ∀ p ∈ (applyOp s op).activeMonitors, p.2.status ≠ "PAID" := by
  cases op with
  | add d sessionId now =>
    intro p hp
    rcases mem_setA hp with hp | hp
    · exact h p hp
    · rw [hp]
      show ("MONITORING" : String) ≠ "PAID"
      decide
  | check md5Hash result now => exact noPaid_checkSinglePayment s md5Hash result now h
  | remove md5Hash => exact noPaid_removePayment s md5Hash h
  | stop =>
    intro p hp
    simp [applyOp] at hp

theorem noPaid_foldl (ops : List MOp) (s : MState)
    (h : ∀ p ∈ s.activeMonitors, p.2.status ≠ "PAID") :
    ∀ p ∈ (ops.foldl applyOp s).activeMonitors, p.2.status ≠ "PAID" := by
  induction ops generalizing s with
  | nil => exact h
  | cons op t ih => exact ih _ (noPaid_applyOp s op h)

theorem getA_removePayment_self {s : MState} {md5Hash : String}
    {info : MonitorInfo} (hg : getA s.activeMonitors md5Hash = some info) :
    getA (removePayment md5Hash s).activeMonitors md5Hash = none := by
  unfold removePayment
  rw [hg]
  exact getA_eraseA_self _ _

theorem events_removePayment (s : MState) (md5Hash : String) :
    (removePayment md5Hash s).events = s.events := by
  unfold removePayment
  cases getA s.activeMonitors md5Hash <;> rfl

theorem session_removePayment {s : MState} {md5Hash : String}
    {info : MonitorInfo} (hg : getA s.activeMonitors md5Hash = some info)
    (sid : String) (hsid : info.sessionId = sid) :
    ∀ l, getA (removePayment md5Hash s).userSessions sid = some l →
      md5Hash ∉ l := by
  subst hsid
  unfold removePayment
  simp only [hg]
  cases hus : getA s.userSessions info.sessionId with
  | none =>
    simp only [hus]
    intro l hl
    exact Option.noConfusion hl
  | some sessionPayments =>
    simp only [hus]
    intro l hl
    by_cases hemp : (eraseS sessionPayments md5Hash).isEmpty = true
    · rw [if_pos hemp, getA_eraseA_self] at hl
      exact Option.noConfusion hl
    · rw [if_neg hemp, getA_setA_self] at hl
      rw [← Option.some.inj hl]
      exact not_mem_eraseS _ _

theorem events_handlePaymentSuccess (md5Hash : String) (info : MonitorInfo)
    (s : MState) :
    (handlePaymentSuccess md5Hash info s).events =
      MEvent.paymentSuccess md5Hash info :: s.events := by
  unfold handlePaymentSuccess
  show MEvent.paymentSuccess md5Hash info :: (removePayment md5Hash s).events = _
  rw [events_removePayment]

theorem events_expirePayment (md5Hash : String) (info : MonitorInfo) (s : MState) :
    (expirePayment md5Hash info s).events =
      MEvent.paymentExpired md5Hash info :: s.events := by
  unfold expirePayment
  show MEvent.paymentExpired md5Hash info :: (removePayment md5Hash s).events = _
  rw [events_removePayment]

/-- C2 counterexample: registering the fingerprint "F" a second time
with a different amount does not fail and does not leave the existing
entry unchanged: addPayment is total and overwrites the entry, so the
stored amount changes from 5 to 7. -/
theorem duplicate_registration_cex :
    (getA (addPayment samplePayment2 "sess" 5 sampleMState).activeMonitors
      "F").map MonitorInfo.amount = some 7 ∧
    (some 7 : Option ℕ) ≠ some 5 ∧
    (getA sampleMState.activeMonitors "F").map MonitorInfo.amount = some 5 := by
  refine ⟨by rfl, by decide, by rfl⟩

/-- C2 (amended): addPayment never fails: it unconditionally stores a
fresh entry under the payment fingerprint — overwriting any entry
already registered under the same fingerprint rather than rejecting the
re-registration — with check counter zero and status MONITORING, and
adds the fingerprint to the owning session index. -/
theorem register_creates_or_overwrites (s : MState) (d : PaymentData)
    (sessionId : String) (now : ℕ) :
    getA (addPayment d sessionId now s).activeMonitors d.md5Hash =
      some (mkMonitorInfo d sessionId now) ∧
    (mkMonitorInfo d sessionId now).checkCount = 0 ∧
    (mkMonitorInfo d sessionId now).status = "MONITORING" ∧
    ∃ l, getA (addPayment d sessionId now s).userSessions sessionId = some l ∧
      d.md5Hash ∈ l := by
  refine ⟨?_, rfl, rfl, ?_⟩
  · exact getA_setA_self _ _ _
  · exact ⟨_, getA_setA_self _ _ _, mem_addS _ _⟩

/-- C7: for a registered, not yet expired fingerprint whose status
check returns PAID, the single-entry check removes the fingerprint from
the active monitors and from the owning session index and emits exactly
one success notification, carrying the incremented check count — equal
to 1 when this was the first check. -/
theorem paid_check_removes_and_notifies (s : MState) (F : String)
    (info : MonitorInfo) (now : ℕ)
    (hreg : getA s.activeMonitors F = some info)
    (hfresh : now - info.startTime ≤ maxMonitorTime) :
    getA (checkSinglePayment F (CheckResult.ok "PAID") now s).activeMonitors F =
      none ∧
    (∀ l, getA (checkSinglePayment F (CheckResult.ok "PAID") now s).userSessions
      info.sessionId = some l → F ∉ l) ∧
    (checkSinglePayment F (CheckResult.ok "PAID") now s).events =
      MEvent.paymentSuccess F
        { info with checkCount := info.checkCount + 1, lastCheck := now } ::
        s.events ∧
    (info.checkCount = 0 →
      (checkSinglePayment F (CheckResult.ok "PAID") now s).events =
        MEvent.paymentSuccess F
          { info with checkCount := 1, lastCheck := now } :: s.events) := by
  rw [checkSinglePayment_eq_paid hreg hfresh]
  refine ⟨?_, ?_, ?_, ?_⟩
  · exact getA_removePayment_self (getA_setA_self _ _ _)
  · have hgc : getA ({ s with activeMonitors := setA s.activeMonitors F ({ info with checkCount := info.checkCount + 1, lastCheck := now } : MonitorInfo) } : MState).activeMonitors F = some ({ info with checkCount := info.checkCount + 1, lastCheck := now } : MonitorInfo) := getA_setA_self _ _ _
    exact session_removePayment hgc info.sessionId rfl
  · rw [events_handlePaymentSuccess]
  · intro h0
    rw [events_handlePaymentSuccess, h0]

/-- C7 witness: the PAID transition applied to the concrete registered
sample state at time 5. -/
theorem paid_check_witness :
    getA (checkSinglePayment "F" (CheckResult.ok "PAID") 5
      sampleMState).activeMonitors "F" = none ∧
    (checkSinglePayment "F" (CheckResult.ok "PAID") 5 sampleMState).events =
      MEvent.paymentSuccess "F" { mkMonitorInfo samplePayment "sess" 0 with checkCount := 1, lastCheck := 5 } :: sampleMState.events := by
  have h := paid_check_removes_and_notifies sampleMState "F"
    (mkMonitorInfo samplePayment "sess" 0) 5 (by rfl) (by decide)
  exact ⟨h.1, h.2.2.2 (by rfl)⟩

/-- C8: a registered entry whose elapsed time exceeds the maximum watch
duration is handled identically for every checker outcome — the
StatusChecker result is never consulted — by expiring it: the entry is
removed from the registry and exactly one expiry notification is
emitted, carrying the entry with its check counter unchanged. -/
theorem expired_entry_skips_checker (s : MState) (F : String)
    (info : MonitorInfo) (now : ℕ)
    (hreg : getA s.activeMonitors F = some info)
    (hexp : maxMonitorTime < now - info.startTime) :
    (∀ r1 r2 : CheckResult,
      checkSinglePayment F r1 now s = checkSinglePayment F r2 now s) ∧
    (∀ r : CheckResult, checkSinglePayment F r now s = expirePayment F info s) ∧
    getA (expirePayment F info s).activeMonitors F = none ∧
    (expirePayment F info s).events =
      MEvent.paymentExpired F info :: s.events := by
  refine ⟨?_, ?_, ?_, ?_⟩
  · intro r1 r2
    rw [checkSinglePayment_eq_expired r1 hreg hexp,
      checkSinglePayment_eq_expired r2 hreg hexp]
  · intro r
    exact checkSinglePayment_eq_expired r hreg hexp
  · exact getA_removePayment_self hreg
  · exact events_expirePayment F info s

/-- C8 witness: the expiry behavior applied to the concrete registered
sample state 2000000 ms after registration, beyond the 1800000 ms
maximum watch duration, for two different checker outcomes. -/
theorem expired_entry_witness :
    checkSinglePayment "F" (CheckResult.ok "PAID") 2000000 sampleMState =
      checkSinglePayment "F" (CheckResult.err "boom") 2000000 sampleMState ∧
    getA (expirePayment "F" (mkMonitorInfo samplePayment "sess" 0)
      sampleMState).activeMonitors "F" = none := by
  have h := expired_entry_skips_checker sampleMState "F"
    (mkMonitorInfo samplePayment "sess" 0) 2000000 (by rfl) (by decide)
  exact ⟨h.1 (CheckResult.ok "PAID") (CheckResult.err "boom"), h.2.2.1⟩

/-- C9 (amended): for a registered, not yet expired entry, any checker
outcome other than PAID keeps the entry registered with its check
counter incremented and its last-check time updated, emits nothing, and
never propagates an error (the check is a total state transformer); the
status field is not left as MONITORING on an ordinary non-PAID result —
it is overwritten with the returned status string — and it is left
unchanged only when the checker call throws and the error is caught. -/
theorem inconclusive_check_keeps_entry (s : MState) (F : String)
    (info : MonitorInfo) (now : ℕ)
    (hreg : getA s.activeMonitors F = some info)
    (hfresh : now - info.startTime ≤ maxMonitorTime) :
    (∀ st, st ≠ "PAID" →
      getA (checkSinglePayment F (CheckResult.ok st) now s).activeMonitors F =
        some { info with checkCount := info.checkCount + 1, lastCheck := now, status := st }) ∧
    (∀ st, st ≠ "PAID" →
      (checkSinglePayment F (CheckResult.ok st) now s).events = s.events) ∧
    (∀ msg,
      getA (checkSinglePayment F (CheckResult.err msg) now s).activeMonitors F =
        some { info with checkCount := info.checkCount + 1, lastCheck := now }) ∧
    (∀ msg, (checkSinglePayment F (CheckResult.err msg) now s).events =
      s.events) := by
  refine ⟨?_, ?_, ?_, ?_⟩
  · intro st hst
    rw [checkSinglePayment_eq_other hreg hfresh hst]
    exact getA_setA_self _ _ _
  · intro st hst
    rw [checkSinglePayment_eq_other hreg hfresh hst]
  · intro msg
    rw [checkSinglePayment_eq_err msg hreg hfresh]
    exact getA_setA_self _ _ _
  · intro msg
    rw [checkSinglePayment_eq_err msg hreg hfresh]

/-- C9 counterexample: after one check that resolves UNPAID, the stored
entry has status "UNPAID", not "MONITORING": the code overwrites the
status field with the checker result instead of leaving it as
MONITORING as the claim states. -/
theorem inconclusive_status_cex :
    (getA (checkSinglePayment "F" (CheckResult.ok "UNPAID") 5
      sampleMState).activeMonitors "F").map MonitorInfo.status =
      some "UNPAID" ∧
    ("UNPAID" : String) ≠ "MONITORING" := by
  refine ⟨by rfl, by decide⟩

/-- C9 witness: the amended inconclusive-check behavior applied to the
concrete registered sample state, for an UNPAID result and for a thrown
checker error. -/
theorem inconclusive_check_witness :
    getA (checkSinglePayment "F" (CheckResult.ok "UNPAID") 5
      sampleMState).activeMonitors "F" =
      some { mkMonitorInfo samplePayment "sess" 0 with checkCount := 1, lastCheck := 5, status := "UNPAID" } ∧
    getA (checkSinglePayment "F" (CheckResult.err "boom") 5
      sampleMState).activeMonitors "F" =
      some { mkMonitorInfo samplePayment "sess" 0 with checkCount := 1, lastCheck := 5 } := by
  have h := inconclusive_check_keeps_entry sampleMState "F"
    (mkMonitorInfo samplePayment "sess" 0) 5 (by rfl) (by decide)
  exact ⟨h.1 "UNPAID" (by decide), h.2.2.1 "boom"⟩

/-- C10: along every operation sequence from the initial monitor state,
no registered entry ever has status PAID — entries are created as
MONITORING, a PAID check result removes the entry without writing the
status, and non-PAID results write only non-PAID statuses — so the
aggregate query getCompletedPayments always returns 0. -/
theorem no_paid_entries_in_registry (ops : List MOp) :
    (∀ p ∈ (runOps ops).activeMonitors, p.2.status ≠ "PAID") ∧
    getCompletedPayments (runOps ops) = 0 := by
  have h : ∀ p ∈ (runOps ops).activeMonitors, p.2.status ≠ "PAID" := by
    unfold runOps
    refine noPaid_foldl ops initState ?_
    intro p hp
    simp [initState] at hp
  refine ⟨h, ?_⟩
  unfold getCompletedPayments
  rw [List.length_eq_zero, List.filter_eq_nil_iff]
  intro p hp
  simpa using h p hp

set_option maxRecDepth 8000 in
/-- C10 witness: the invariant applied to a concrete run that registers
one payment and checks it once with an UNPAID result. -/
theorem no_paid_entries_witness :
    getCompletedPayments (runOps [MOp.add samplePayment "sess" 0,
      MOp.check "F" (CheckResult.ok "UNPAID") 5]) = 0 ∧
    ("F", { mkMonitorInfo samplePayment "sess" 0 with checkCount := 1, lastCheck := 5, status := "UNPAID" }).2.status ≠ "PAID" := by
  refine ⟨(no_paid_entries_in_registry [MOp.add samplePayment "sess" 0,
    MOp.check "F" (CheckResult.ok "UNPAID") 5]).2, ?_⟩
  exact (no_paid_entries_in_registry [MOp.add samplePayment "sess" 0,
    MOp.check "F" (CheckResult.ok "UNPAID") 5]).1
    ("F", { mkMonitorInfo samplePayment "sess" 0 with checkCount := 1, lastCheck := 5, status := "UNPAID" }) (by decide)

end AutoPaymentMonitor
